import Mathlib

/-!
Verification of the Trustable signal-extraction and composite-scoring engine.

The definitions below are a shallow embedding of the source of the engine:

* `analyzeResponse` and `calculateScores` embed the functions of the same
  names in the run-scan edge function (src/RUNBOOK.md);
* `analyzeCompetitorResponse` embeds the function of the same name in the
  competitor-scan edge function (src/unnamed/part_001);
* `evaluateDrift` embeds the alert block of the run-scan handler
  (src/RUNBOOK.md, "Create alerts if score dropped").

Texts are lists of characters (`String.data`); the JavaScript `toLowerCase`
is modelled by character-wise `Char.toLower`, and its IEEE-754 number
arithmetic by exact rational arithmetic, with `Math.round` as
round-half-toward-positive-infinity (`jround`).  Regular expressions built
by the engine are modelled by `parseRegex`, which covers exactly the
fragment the engine can generate: escaped characters and the `.` wildcard;
a pattern using any other metacharacter is outside the model and parses to
`none`.
-/

namespace Trustable

/-- JavaScript `Math.round` on exact rationals: round half toward `+∞`. -/
def jround (q : ℚ) : ℤ := ⌊q + 1/2⌋

/-- JavaScript `Math.max(0, Math.min(1, x))`. -/
def clamp01 (q : ℚ) : ℚ := max 0 (min 1 q)

/-- Character-wise lower-casing, the model of JS `toLowerCase`. -/
def lowerL (s : List Char) : List Char := s.map Char.toLower

/-- JS `hay.includes(needle)`: substring test. -/
def includesL (hay needle : List Char) : Bool := decide (needle <:+: hay)

/-- JS `hay.indexOf(needle)`: index of the first occurrence, if any. -/
def indexOfSub (needle : List Char) : List Char → Option Nat
  | [] => if needle.isPrefixOf [] then some 0 else none
  | c :: t =>
    if needle.isPrefixOf (c :: t) then some 0
    else (indexOfSub needle t).map (· + 1)

/-- A token of the regex fragment the engine generates: a literal character
or the `.` wildcard.  Every token consumes exactly one character. -/
inductive Tok where
  | lit (c : Char)
  | wild
  deriving DecidableEq, Repr

/-- Does one token accept one character? -/
def tokFits : Tok → Char → Bool
  | .lit c, d => c == d
  | .wild, _ => true

/-- Does the (fixed-width) pattern match at the front of the text? -/
def patFits : List Tok → List Char → Bool
  | [], _ => true
  | _ :: _, [] => false
  | t :: p, c :: s => tokFits t c && patFits p s

/-- One pass of the global regex scan for a nonempty fixed-width pattern:
count non-overlapping matches left to right, restarting right after each
match, as JS `text.match(re)` with the `g` flag does.  `fuel` bounds the
scan; callers pass the length of the text. -/
def scanCount (p : List Tok) : Nat → List Char → Nat
  | _, [] => 0
  | 0, _ :: _ => 0
  | fuel + 1, c :: s =>
    if patFits p (c :: s) then 1 + scanCount p fuel (s.drop (p.length - 1))
    else scanCount p fuel s

/-- JS `(text.match(re) || []).length` for a fixed-width pattern: the number
of non-overlapping matches.  An empty pattern matches once at every
position including the end of the text, as in JS. -/
def countMatches (p : List Tok) (hay : List Char) : Nat :=
  if p.isEmpty then hay.length + 1 else scanCount p hay.length hay

/-- The all-literal pattern spelling a string. -/
def lits (s : List Char) : List Tok := s.map Tok.lit

/-- The number of non-overlapping occurrences of `needle`, taken literally,
in `hay`, counted left to right. -/
def countOcc (needle hay : List Char) : Nat := countMatches (lits needle) hay

/-- The characters the escape step of the engine treats as regex
metacharacters: `. * + ? ^ $ ( ) | [ ] \` and the two curly braces. -/
def regexMetaChars : List Char :=
  ['.', '*', '+', '?', '^', '$', Char.ofNat 123, Char.ofNat 125,
   '(', ')', '|', '[', ']', '\\']

/-- Is `c` one of the escaped metacharacters? -/
def isMeta (c : Char) : Bool := regexMetaChars.contains c

/-- The escape step of the run-scan analyzer,
`name.replace(/[.*+?^$()|[\]\\]brace class/g, backslash-dollar-amp)`:
prefix every regex metacharacter with a backslash. -/
def escapeRegex (s : List Char) : List Char :=
  s.flatMap fun c => if isMeta c then ['\\', c] else [c]

/-- Parse the regex fragment the engine can generate: a backslash-escaped
character stands for itself and `.` is the wildcard.  Any other
metacharacter (quantifier, class, group, anchor, alternation) is outside
the modelled fragment and yields `none`. -/
def parseRegex : List Char → Option (List Tok)
  | [] => some []
  | c :: rest =>
    if c = '\\' then
      match rest with
      | [] => none
      | d :: rest' => (parseRegex rest').map (Tok.lit d :: ·)
    else if c = '.' then (parseRegex rest).map (Tok.wild :: ·)
    else if isMeta c then none
    else (parseRegex rest).map (Tok.lit c :: ·)

/-- The characters that end a URL match: the model of the character class
`[^\s<>"|\\^[\]]` with braces and the backquote, from the citation regex. -/
def isUrlStop (c : Char) : Bool :=
  c.isWhitespace || c == '<' || c == '>' || c == '"' || c == Char.ofNat 123 ||
  c == Char.ofNat 125 || c == '|' || c == '\\' || c == '^' ||
  c == Char.ofNat 96 || c == '[' || c == ']'

/-- A match of the citation regex `https?://` followed by one or more
non-stop characters, at the front of `s` (the `i` flag is modelled by
lower-casing the scheme comparison): the matched characters and the rest
of the text after the match. -/
def urlHere (s : List Char) : Option (List Char × List Char) :=
  if lowerL (s.take 8) = "https://".data then
    let body := (s.drop 8).takeWhile fun c => !isUrlStop c
    if body.isEmpty then none
    else some (s.take 8 ++ body, (s.drop 8).dropWhile fun c => !isUrlStop c)
  else if lowerL (s.take 7) = "http://".data then
    let body := (s.drop 7).takeWhile fun c => !isUrlStop c
    if body.isEmpty then none
    else some (s.take 7 ++ body, (s.drop 7).dropWhile fun c => !isUrlStop c)
  else none

/-- The global scan of the citation regex: all matches, left to right,
resuming after each match.  `fuel` bounds the scan. -/
def urlScan : Nat → List Char → List (List Char)
  | _, [] => []
  | 0, _ :: _ => []
  | fuel + 1, c :: s =>
    match urlHere (c :: s) with
    | some (m, rest) => m :: urlScan fuel rest
    | none => urlScan fuel s

/-- JS `responseText.match(citation regex) || []`: every URL token in the
text. -/
def findUrls (text : List Char) : List (List Char) := urlScan text.length text

/-- The hedging lexicon `HEDGING_WORDS` of the run-scan analyzer. -/
def HEDGING_WORDS : List (List Char) :=
  ["might", "could", "may", "possibly", "perhaps", "maybe",
   "generally", "typically", "usually", "sometimes", "often",
   "it seems", "appears to", "tends to", "some say"].map String.data

/-- The positive lexicon `POSITIVE_INDICATORS` of the run-scan analyzer. -/
def POSITIVE_INDICATORS : List (List Char) :=
  ["excellent", "outstanding", "great", "recommend", "trusted",
   "reliable", "best", "top", "quality", "professional",
   "highly recommended", "well-known", "established"].map String.data

/-- The negative lexicon `NEGATIVE_INDICATORS` of the run-scan analyzer. -/
def NEGATIVE_INDICATORS : List (List Char) :=
  ["complaints", "issues", "problems", "avoid", "poor",
   "negative", "scam", "controversial", "warning", "careful"].map String.data

/-- The recommendation lexicon `RECOMMENDATION_PHRASES` of the run-scan
analyzer. -/
def RECOMMENDATION_PHRASES : List (List Char) :=
  ["recommend", "suggest", "consider", "good choice", "worth",
   "definitely", "should try", "top pick"].map String.data

/-- `POSITIVE_INDICATORS.filter(p => lowerText.includes(p)).length`. -/
def positiveCountOf (lowerText : List Char) : Nat :=
  (POSITIVE_INDICATORS.filter fun p => includesL lowerText p).length

/-- `NEGATIVE_INDICATORS.filter(n => lowerText.includes(n)).length`. -/
def negativeCountOf (lowerText : List Char) : Nat :=
  (NEGATIVE_INDICATORS.filter fun n => includesL lowerText n).length

/-- `HEDGING_WORDS.filter(h => lowerText.includes(h))`. -/
def hedgingPhrasesOf (lowerText : List Char) : List (List Char) :=
  HEDGING_WORDS.filter fun h => includesL lowerText h

/-- `RECOMMENDATION_PHRASES.filter(r => lowerText.includes(r)).length`. -/
def recommendationCountOf (lowerText : List Char) : Nat :=
  (RECOMMENDATION_PHRASES.filter fun r => includesL lowerText r).length

/-- `(positiveCount - negativeCount) / Math.max(1, positiveCount + negativeCount)`. -/
def sentimentScoreOf (p n : Nat) : ℚ :=
  ((p : ℚ) - (n : ℚ)) / ((max 1 (p + n) : ℕ) : ℚ)

/-- The sentiment categories the run-scan analyzer can emit. -/
inductive Sentiment where
  | NEGATIVE
  | POSITIVE
  | CAUTIOUS
  | NEUTRAL
  deriving DecidableEq, Repr

/-- The sentiment-category chain of the run-scan analyzer, in source order. -/
def sentimentOf (p n : Nat) : Sentiment :=
  if 2 ≤ n then .NEGATIVE
  else if (0.3 : ℚ) < sentimentScoreOf p n then .POSITIVE
  else if (0 : ℚ) < sentimentScoreOf p n then .POSITIVE
  else if 0 < n then .CAUTIOUS
  else .NEUTRAL

/-- `Math.max(0, Math.min(1, 0.5 + positiveCount*0.1 - hedging*0.1))`. -/
def confidenceScoreOf (p h : Nat) : ℚ :=
  clamp01 (0.5 + (p : ℚ) * 0.1 - (h : ℚ) * 0.1)

/-- The mention types the run-scan analyzer can emit. -/
inductive MentionType where
  | ABSENT
  | NEGATIVE
  | PRIMARY
  | FEATURED
  | COMPARISON
  | BRIEF
  deriving DecidableEq, Repr

/-- The mention-type chain of the run-scan analyzer, in source order. -/
def mentionTypeOf (mentioned : Bool) (negativeCount mentionCount : Nat)
    (competitorHit : Bool) : MentionType :=
  if !mentioned then .ABSENT
  else if 2 ≤ negativeCount then .NEGATIVE
  else if 3 ≤ mentionCount then .PRIMARY
  else if 2 ≤ mentionCount then .FEATURED
  else if competitorHit then .COMPARISON
  else .BRIEF

/-- Recommendation strengths. -/
inductive RecStrength where
  | STRONG
  | MODERATE
  | NONE
  deriving DecidableEq, Repr

/-- The output record of the run-scan analyzer.  The source also returns
`ranking`, `citedSources`, `keyPhrases`, `positiveIndicators` and
`negativeIndicators`; no verified property consults them and the scoring
function never reads them, so they are not carried in the record. -/
structure ResponseAnalysis where
  mentioned : Bool
  mentionType : MentionType
  mentionContext : List Char
  mentionCount : Nat
  sentiment : Sentiment
  sentimentScore : ℚ
  confidenceScore : ℚ
  hasHedging : Bool
  hedgingPhrases : List (List Char)
  isRecommended : Bool
  recommendationStrength : RecStrength
  citedUrl : Option (List Char)
  competitorsMentioned : List (List Char)
  deriving DecidableEq, Repr

/-- Embedding of `analyzeResponse` from the run-scan edge function
(src/RUNBOOK.md).  The `i` regex flag is modelled by matching the
already-lower-cased pattern against the lower-cased text; the mention
regex is built by escaping the lower-cased business name, exactly as the
source does. -/
def analyzeResponse (responseText businessName : List Char)
    (competitors : List (List Char)) : ResponseAnalysis :=
  let lowerText := lowerL responseText
  let lowerBusiness := lowerL businessName
  let mentioned := includesL lowerText lowerBusiness
  let mentionCount :=
    match parseRegex (escapeRegex lowerBusiness) with
    | some p => countMatches p lowerText
    | none => 0
  let mentionContext :=
    if mentioned then
      let index := (indexOfSub lowerBusiness lowerText).getD 0
      let start := index - 150
      let stop := min responseText.length (index + businessName.length + 150)
      let ctx := (responseText.drop start).take (stop - start)
      let ctx := if 0 < start then "...".data ++ ctx else ctx
      if stop < responseText.length then ctx ++ "...".data else ctx
    else []
  let positiveCount := positiveCountOf lowerText
  let negativeCount := negativeCountOf lowerText
  let sentiment := sentimentOf positiveCount negativeCount
  let hedgingPhrases := hedgingPhrasesOf lowerText
  let recommendationCount := recommendationCountOf lowerText
  { mentioned := mentioned
    mentionType := mentionTypeOf mentioned negativeCount mentionCount
      (competitors.any fun c => includesL lowerText (lowerL c))
    mentionContext := mentionContext
    mentionCount := mentionCount
    sentiment := sentiment
    sentimentScore := sentimentScoreOf positiveCount negativeCount
    confidenceScore := confidenceScoreOf positiveCount hedgingPhrases.length
    hasHedging := decide (2 ≤ hedgingPhrases.length)
    hedgingPhrases := hedgingPhrases
    isRecommended := decide (0 < recommendationCount ∧ sentiment ≠ .NEGATIVE)
    recommendationStrength :=
      if 2 ≤ recommendationCount then .STRONG
      else if recommendationCount = 1 then .MODERATE
      else .NONE
    citedUrl := (findUrls responseText).find? fun url =>
      includesL (lowerL url) (lowerBusiness.filter fun c => !c.isWhitespace)
    competitorsMentioned := competitors.filter fun c => includesL lowerText (lowerL c) }

/-- The positive word list of the competitor-scan analyzer. -/
def COMP_POSITIVE_WORDS : List (List Char) :=
  ["excellent", "great", "recommend", "trusted", "best", "quality"].map String.data

/-- The negative word list of the competitor-scan analyzer. -/
def COMP_NEGATIVE_WORDS : List (List Char) :=
  ["complaints", "issues", "avoid", "poor", "negative"].map String.data

/-- The output record of the competitor-scan analyzer. -/
structure CompetitorAnalysis where
  mentioned : Bool
  mentionCount : Nat
  sentimentScore : ℚ
  isRecommended : Bool
  positiveCount : Nat
  negativeCount : Nat
  deriving DecidableEq, Repr

/-- Embedding of `analyzeCompetitorResponse` from the competitor-scan edge
function (src/unnamed/part_001).  Its mention regex is built from the raw
lower-cased competitor name with NO escaping, `new RegExp(lowerName, gi)`;
a name whose lowered form uses regex syntax outside the modelled fragment
parses to `none` and is outside this embedding (counted 0). -/
def analyzeCompetitorResponse (response competitorName : List Char) : CompetitorAnalysis :=
  let lowerText := lowerL response
  let lowerName := lowerL competitorName
  let mentioned := includesL lowerText lowerName
  let mentionCount :=
    match parseRegex lowerName with
    | some p => countMatches p lowerText
    | none => 0
  let positiveCount := (COMP_POSITIVE_WORDS.filter fun w => includesL lowerText w).length
  let negativeCount := (COMP_NEGATIVE_WORDS.filter fun w => includesL lowerText w).length
  { mentioned := mentioned
    mentionCount := mentionCount
    sentimentScore := sentimentScoreOf positiveCount negativeCount
    isRecommended := includesL lowerText "recommend".data && decide (negativeCount = 0)
    positiveCount := positiveCount
    negativeCount := negativeCount }

/-- The composite-score record `calculateScores` returns. -/
structure Scores where
  overall_score : ℤ
  ai_trust_score : ℤ
  ai_visibility_score : ℤ
  ai_recommendation_score : ℤ
  ai_citation_score : ℤ
  sentiment_score : ℤ
  confidence_score : ℤ
  deriving DecidableEq, Repr

/-- Embedding of `calculateScores` from the run-scan edge function
(src/RUNBOOK.md).  On an empty batch the source returns the fixed record
shown in the first branch; otherwise every sub-score is `Math.round` of
the corresponding rate or average, and the two composites weight the
already-rounded integer sub-scores. -/
def calculateScores (analyses : List ResponseAnalysis) : Scores :=
  if analyses.length = 0 then
    { overall_score := 0
      ai_trust_score := 0
      ai_visibility_score := 0
      ai_recommendation_score := 0
      ai_citation_score := 0
      sentiment_score := 50
      confidence_score := 50 }
  else
    let total : ℚ := analyses.length
    let mentionedCount := (analyses.filter fun a => a.mentioned).length
    let ai_visibility_score := jround ((mentionedCount : ℚ) / total * 100)
    let avgSentiment := (analyses.map fun a => a.sentimentScore).sum / total
    let sentiment_score := jround ((avgSentiment + 1) / 2 * 100)
    let avgConfidence := (analyses.map fun a => a.confidenceScore).sum / total
    let confidence_score := jround (avgConfidence * 100)
    let recommendedCount := (analyses.filter fun a => a.isRecommended).length
    let ai_recommendation_score := jround ((recommendedCount : ℚ) / total * 100)
    let citedCount := (analyses.filter fun a => a.citedUrl.isSome).length
    let ai_citation_score := jround ((citedCount : ℚ) / total * 100)
    let hedgingRate := ((analyses.filter fun a => a.hasHedging).length : ℚ) / total
    let nonNegCount :=
      (analyses.filter fun a => decide (a.mentionType ≠ MentionType.NEGATIVE)).length
    let ai_trust_score := jround
      ((sentiment_score : ℚ) * 0.35 + (100 - hedgingRate * 100) * 0.30 +
        (ai_recommendation_score : ℚ) * 0.25 + ((nonNegCount : ℚ) / total * 100) * 0.10)
    let overall_score := jround
      ((ai_trust_score : ℚ) * 0.25 + (ai_visibility_score : ℚ) * 0.20 +
        (ai_recommendation_score : ℚ) * 0.20 + (ai_citation_score : ℚ) * 0.10 +
        (sentiment_score : ℚ) * 0.15 + (confidence_score : ℚ) * 0.10)
    { overall_score := overall_score
      ai_trust_score := ai_trust_score
      ai_visibility_score := ai_visibility_score
      ai_recommendation_score := ai_recommendation_score
      ai_citation_score := ai_citation_score
      sentiment_score := sentiment_score
      confidence_score := confidence_score }

/-- Alert severities the drift block can emit. -/
inductive Severity where
  | CRITICAL
  | WARNING
  deriving DecidableEq, Repr

/-- Embedding of the run-scan alert block (src/RUNBOOK.md):
`if (prevScore && overall < prev.overall - 10)` insert a SCORE_DROP alert
whose severity is `overall < prev.overall - 20 ? CRITICAL : WARNING`.
The result is the severity of the created alert, `none` when no alert is
created. -/
def evaluateDrift (currentOverall : ℤ) : Option ℤ → Option Severity
  | none => none
  | some prevOverall =>
    if currentOverall < prevOverall - 10 then
      some (if currentOverall < prevOverall - 20 then Severity.CRITICAL else Severity.WARNING)
    else none

/-- Spec-side trust formula of §4.3, stated from the words of the spec:
`round(0.35*sentiment + 0.30*(100-100*hedgingRate) + 0.25*recommendation +
0.10*100*nonNegativeRate)` over the already-rounded integer sub-scores. -/
def specTrust (sentiment recommendation : ℤ) (hedgingRate nonNegativeRate : ℚ) : ℤ :=
  jround ((0.35 : ℚ) * sentiment + 0.30 * (100 - 100 * hedgingRate) +
    0.25 * recommendation + 0.10 * (100 * nonNegativeRate))

/-- Spec-side overall formula of §4.3, stated from the words of the spec. -/
def specOverall (trust visibility recommendation citation sentiment confidence : ℤ) : ℤ :=
  jround ((0.25 : ℚ) * trust + 0.20 * visibility + 0.20 * recommendation +
    0.10 * citation + 0.15 * sentiment + 0.10 * confidence)

/-- Spec-side citation formula of §4.3: `round(100 * count(has a cited
URL) / n)`, reading "has a cited URL" as the `citedUrl` field of the analysis
being present, which is what the aggregator counts. -/
def specCitation (analyses : List ResponseAnalysis) : ℤ :=
  jround (100 * ((analyses.filter fun a => a.citedUrl.isSome).length : ℚ) / analyses.length)

/-- The hedging rate of the batch, `count(hasHedging)/n`. -/
def hedgingRateOf (analyses : List ResponseAnalysis) : ℚ :=
  ((analyses.filter fun a => a.hasHedging).length : ℚ) / analyses.length

/-- The non-negative rate of the batch, `count(mentionType ≠ NEGATIVE)/n`. -/
def nonNegativeRateOf (analyses : List ResponseAnalysis) : ℚ :=
  ((analyses.filter fun a => decide (a.mentionType ≠ MentionType.NEGATIVE)).length : ℚ) /
    analyses.length

/-- A batch of analyses produced by the run-scan analyzer from a list of
(response text, business name, competitor list) inputs. -/
def analyzeBatch (inputs : List (List Char × List Char × List (List Char))) :
    List ResponseAnalysis :=
  inputs.map fun i => analyzeResponse i.1 i.2.1 i.2.2

end Trustable

namespace Trustable

theorem scanCount_nil (p : List Tok) (fuel : Nat) : scanCount p fuel [] = 0 := by
  cases fuel <;> rfl

theorem scanCount_succ_cons (p : List Tok) (fuel : Nat) (c : Char) (s : List Char) :
    scanCount p (fuel + 1) (c :: s) =
      if patFits p (c :: s) then 1 + scanCount p fuel (s.drop (p.length - 1))
      else scanCount p fuel s := rfl

theorem parseRegex_cons_escaped (c : Char) (t : List Char) :
    parseRegex ('\\' :: c :: t) = (parseRegex t).map (Tok.lit c :: ·) := by
  rw [parseRegex.eq_def]
  simp

theorem parseRegex_cons_plain (c : Char) (t : List Char) (hbs : c ≠ '\\')
    (hdot : c ≠ '.') (h : ¬ isMeta c = true) :
    parseRegex (c :: t) = (parseRegex t).map (Tok.lit c :: ·) := by
  rw [parseRegex.eq_def]
  simp [hbs, hdot, h]

/-- Escaping then parsing yields the all-literal pattern: the escaped name
is matched literally. -/
theorem parseRegex_escapeRegex (s : List Char) :
    parseRegex (escapeRegex s) = some (lits s) := by
  induction s with
  | nil => rfl
  | cons c t ih =>
    by_cases h : isMeta c
    · have he : escapeRegex (c :: t) = '\\' :: c :: escapeRegex t := by
        simp [escapeRegex, h]
      rw [he, parseRegex_cons_escaped, ih]
      rfl
    · have hbs : c ≠ '\\' := by
        intro he
        rw [he] at h
        simp [isMeta, regexMetaChars] at h
      have hdot : c ≠ '.' := by
        intro he
        rw [he] at h
        simp [isMeta, regexMetaChars] at h
      have he : escapeRegex (c :: t) = c :: escapeRegex t := by
        simp [escapeRegex, h]
      rw [he, parseRegex_cons_plain c _ hbs hdot h, ih]
      rfl

theorem patFits_lits_iff (needle : List Char) :
    ∀ s : List Char, patFits (lits needle) s = true ↔ needle <+: s := by
  induction needle with
  | nil => intro s; simp [lits, patFits]
  | cons c t ih =>
    intro s
    cases s with
    | nil => simp [lits, patFits]
    | cons d s' =>
      simp only [lits, List.map_cons, patFits, tokFits, Bool.and_eq_true, beq_iff_eq,
        List.cons_prefix_cons]
      constructor
      · rintro ⟨rfl, hf⟩; exact ⟨rfl, (ih s').mp hf⟩
      · rintro ⟨rfl, hp⟩; exact ⟨rfl, (ih s').mpr hp⟩

theorem scanCount_pos_iff (needle : List Char) (hne : needle ≠ []) :
    ∀ (fuel : Nat) (hay : List Char), hay.length ≤ fuel →
      (0 < scanCount (lits needle) fuel hay ↔ needle <:+: hay) := by
  intro fuel
  induction fuel with
  | zero =>
    intro hay hlen
    have h0 : hay = [] := List.length_eq_zero.mp (Nat.le_zero.mp hlen)
    subst h0
    simp [scanCount_nil, List.infix_nil, hne]
  | succ fuel ih =>
    intro hay hlen
    cases hay with
    | nil => simp [scanCount_nil, List.infix_nil, hne]
    | cons c s =>
      rw [List.infix_cons_iff, scanCount_succ_cons]
      by_cases hfit : patFits (lits needle) (c :: s) = true
      · rw [if_pos hfit]
        constructor
        · intro _; exact Or.inl ((patFits_lits_iff needle (c :: s)).mp hfit)
        · intro _; omega
      · rw [if_neg hfit]
        have hlen' : s.length ≤ fuel := by
          simpa using Nat.succ_le_succ_iff.mp hlen
        rw [ih s hlen']
        constructor
        · exact Or.inr
        · rintro (hpre | hinf)
          · exact absurd ((patFits_lits_iff needle (c :: s)).mpr hpre) hfit
          · exact hinf

theorem countOcc_pos_iff (needle hay : List Char) :
    0 < countOcc needle hay ↔ needle <:+: hay := by
  rcases eq_or_ne needle [] with rfl | hne
  · simp [countOcc, countMatches, lits, List.nil_infix]
  · have hne' : ¬ (lits needle).isEmpty = true := by
      simp [lits, List.isEmpty_iff, hne]
    rw [countOcc, countMatches, if_neg hne']
    exact scanCount_pos_iff needle hne hay.length hay le_rfl

end Trustable

namespace Trustable

theorem maxden_pos (p n : Nat) : (0 : ℚ) < ((max 1 (p + n) : ℕ) : ℚ) := by
  exact_mod_cast Nat.lt_of_lt_of_le Nat.zero_lt_one (Nat.le_max_left 1 (p + n))

/-- The sentiment chain, characterised by the two lexicon counts alone: the
two `POSITIVE` branches collapse, and the sign of the score is the sign of
`p - n`. -/
theorem sentimentOf_eq (p n : Nat) :
    sentimentOf p n =
      if 2 ≤ n then .NEGATIVE
      else if n < p then .POSITIVE
      else if 0 < n then .CAUTIOUS
      else .NEUTRAL := by
  unfold sentimentOf
  by_cases h2 : 2 ≤ n
  · simp [h2]
  · simp only [if_neg h2]
    have hD := maxden_pos p n
    by_cases hlt : n < p
    · have hpos : 0 < sentimentScoreOf p n := by
        unfold sentimentScoreOf
        apply div_pos _ hD
        have : (n : ℚ) < (p : ℚ) := by exact_mod_cast hlt
        linarith
      by_cases h3 : (0.3 : ℚ) < sentimentScoreOf p n
      · simp [h3, hlt]
      · simp [h3, hpos, hlt]
    · have hnp : sentimentScoreOf p n ≤ 0 := by
        unfold sentimentScoreOf
        apply div_nonpos_of_nonpos_of_nonneg
        · have : (p : ℚ) ≤ (n : ℚ) := by exact_mod_cast Nat.le_of_not_lt hlt
          linarith
        · exact le_of_lt hD
      have h3 : ¬ (0.3 : ℚ) < sentimentScoreOf p n := by
        intro hc
        have : (0 : ℚ) < 0.3 := by norm_num
        linarith
      have h0 : ¬ (0 : ℚ) < sentimentScoreOf p n := not_lt.mpr hnp
      simp [h3, h0, hlt]

theorem sentimentScoreOf_bounds (p n : Nat) :
    -1 ≤ sentimentScoreOf p n ∧ sentimentScoreOf p n ≤ 1 := by
  have hD := maxden_pos p n
  have hsum : (p : ℚ) + (n : ℚ) ≤ ((max 1 (p + n) : ℕ) : ℚ) := by
    exact_mod_cast Nat.le_max_right 1 (p + n)
  have hp : (0 : ℚ) ≤ (p : ℚ) := Nat.cast_nonneg p
  have hn : (0 : ℚ) ≤ (n : ℚ) := Nat.cast_nonneg n
  unfold sentimentScoreOf
  constructor
  · rw [le_div_iff₀ hD]
    linarith
  · rw [div_le_one hD]
    linarith

theorem clamp01_bounds (q : ℚ) : 0 ≤ clamp01 q ∧ clamp01 q ≤ 1 :=
  ⟨le_max_left 0 _, max_le (by norm_num) (min_le_left 1 q)⟩

theorem jround_bounds {x : ℚ} (h0 : 0 ≤ x) (h100 : x ≤ 100) :
    0 ≤ jround x ∧ jround x ≤ 100 := by
  unfold jround
  constructor
  · exact Int.le_floor.mpr (by push_cast; linarith)
  · have hlt : ⌊x + 1/2⌋ < (101 : ℤ) := Int.floor_lt.mpr (by push_cast; linarith)
    omega

theorem mentionTypeOf_eq_ABSENT_iff (m : Bool) (nc mc : Nat) (ch : Bool) :
    mentionTypeOf m nc mc ch = MentionType.ABSENT ↔ m = false := by
  unfold mentionTypeOf
  cases m
  · simp
  · simp only [Bool.not_true, Bool.false_eq_true, if_false]
    split_ifs <;> simp

end Trustable

namespace Trustable

theorem analyzeResponse_mentioned (text name : List Char) (cs : List (List Char)) :
    (analyzeResponse text name cs).mentioned = includesL (lowerL text) (lowerL name) := rfl

theorem analyzeResponse_mentionCount (text name : List Char) (cs : List (List Char)) :
    (analyzeResponse text name cs).mentionCount = countOcc (lowerL name) (lowerL text) := by
  show (match parseRegex (escapeRegex (lowerL name)) with
        | some p => countMatches p (lowerL text)
        | none => 0) = countOcc (lowerL name) (lowerL text)
  rw [parseRegex_escapeRegex]
  rfl

theorem analyzeResponse_mentionType (text name : List Char) (cs : List (List Char)) :
    (analyzeResponse text name cs).mentionType =
      mentionTypeOf (includesL (lowerL text) (lowerL name)) (negativeCountOf (lowerL text))
        (analyzeResponse text name cs).mentionCount
        (cs.any fun c => includesL (lowerL text) (lowerL c)) := rfl

theorem analyzeResponse_sentiment (text name : List Char) (cs : List (List Char)) :
    (analyzeResponse text name cs).sentiment =
      sentimentOf (positiveCountOf (lowerL text)) (negativeCountOf (lowerL text)) := rfl

theorem analyzeResponse_sentimentScore (text name : List Char) (cs : List (List Char)) :
    (analyzeResponse text name cs).sentimentScore =
      sentimentScoreOf (positiveCountOf (lowerL text)) (negativeCountOf (lowerL text)) := rfl

theorem analyzeResponse_confidenceScore (text name : List Char) (cs : List (List Char)) :
    (analyzeResponse text name cs).confidenceScore =
      confidenceScoreOf (positiveCountOf (lowerL text)) (hedgingPhrasesOf (lowerL text)).length := rfl

theorem analyzeResponse_hasHedging (text name : List Char) (cs : List (List Char)) :
    (analyzeResponse text name cs).hasHedging =
      decide (2 ≤ (hedgingPhrasesOf (lowerL text)).length) := rfl

theorem analyzeResponse_isRecommended (text name : List Char) (cs : List (List Char)) :
    (analyzeResponse text name cs).isRecommended =
      decide (0 < recommendationCountOf (lowerL text) ∧
        sentimentOf (positiveCountOf (lowerL text)) (negativeCountOf (lowerL text)) ≠
          Sentiment.NEGATIVE) := rfl

/-- Claim C1 (amended): with a previous score present, an alert is created
exactly when `delta = current - previous` is at most `-11` (the strict
source comparison `current < previous - 10`), and its severity is `CRITICAL` exactly
when `delta ≤ -21`, else `WARNING`; with no previous score, no alert.  At
`delta = -10` no alert is created, and at `delta = -20` the severity is
`WARNING`, not `CRITICAL`. -/
theorem drift_threshold_strict (c p : ℤ) :
    evaluateDrift c none = none ∧
    evaluateDrift c (some p) =
      (if c - p ≤ -11 then
        some (if c - p ≤ -21 then Severity.CRITICAL else Severity.WARNING)
      else none) := by
  refine ⟨rfl, ?_⟩
  show (if c < p - 10 then
          some (if c < p - 20 then Severity.CRITICAL else Severity.WARNING)
        else none) = _
  by_cases h1 : c < p - 10
  · rw [if_pos h1, if_pos (by omega : c - p ≤ -11)]
    by_cases h2 : c < p - 20
    · rw [if_pos h2, if_pos (by omega : c - p ≤ -21)]
    · rw [if_neg h2, if_neg (by omega : ¬ c - p ≤ -21)]
  · rw [if_neg h1, if_neg (by omega : ¬ c - p ≤ -11)]

/-- Claim C1 counterexample: at the claimed boundaries the code disagrees
with the claim: `delta = -10` creates no alert, and `delta = -20` creates a
`WARNING`, not a `CRITICAL`, alert. -/
theorem drift_no_alert_at_minus10 :
    (70 : ℤ) - 80 = -10 ∧ evaluateDrift 70 (some 80) = none ∧
    (60 : ℤ) - 80 = -20 ∧ evaluateDrift 60 (some 80) = some Severity.WARNING := by
  exact ⟨by decide, by decide, by decide, by decide⟩

/-- Claim C2 (amended): on an empty batch the aggregator returns the fixed
record with visibility, citation, recommendation, trust and overall all 0
and sentiment and confidence both 50; trust and overall are fixed
constants, not computed from the trust/overall formulas. -/
theorem calculateScores_nil_fixed :
    calculateScores [] =
      { overall_score := 0, ai_trust_score := 0, ai_visibility_score := 0,
        ai_recommendation_score := 0, ai_citation_score := 0,
        sentiment_score := 50, confidence_score := 50 } := by decide

/-- Claim C2 counterexample: on the empty batch the code returns trust 0
and overall 0, while the trust formula of the spec over the same defaults
(sentiment 50, recommendation 0, both rates 0) yields 48, and its overall
formula over the defaults yields 25. -/
theorem calculateScores_nil_trust_not_formula :
    (calculateScores []).ai_trust_score = 0 ∧
    (calculateScores []).overall_score = 0 ∧
    specTrust 50 0 0 0 = 48 ∧
    specOverall 48 0 0 0 50 50 = 25 := by
  refine ⟨by decide, by decide, ?_, ?_⟩
  · norm_num [specTrust, jround, Int.floor_eq_iff]
  · norm_num [specOverall, jround, Int.floor_eq_iff]

/-- Claim C4 (amended): in the primary-scan analyzer the mention count is,
for every response and business name, the number of non-overlapping
case-insensitive occurrences of the (escaped, hence literal) name; the
competitor-scan analyzer does NOT escape, and on name "a.b" and response
"axb" it reports 1 mention although the name never occurs literally. -/
theorem mentionCount_escaping (text name : List Char) (cs : List (List Char)) :
    (analyzeResponse text name cs).mentionCount = countOcc (lowerL name) (lowerL text) ∧
    ((analyzeCompetitorResponse "axb".data "a.b".data).mentionCount = 1 ∧
      countOcc (lowerL "a.b".data) (lowerL "axb".data) = 0) :=
  ⟨analyzeResponse_mentionCount text name cs, by decide, by decide⟩

/-- Claim C4 counterexample: the competitor-scan analyzer builds its
pattern without escaping, so for the name "a.b" and the response "axb" it
reports `mentionCount = 1` (the dot matches 'x') while the literal name
has zero occurrences — and `mentioned` is simultaneously `false`. -/
theorem competitor_mentionCount_unescaped :
    (analyzeCompetitorResponse "axb".data "a.b".data).mentionCount = 1 ∧
    countOcc (lowerL "a.b".data) (lowerL "axb".data) = 0 ∧
    (analyzeCompetitorResponse "axb".data "a.b".data).mentioned = false :=
  ⟨by decide, by decide, by decide⟩

/-- Claim C5: for every classified analysis, `mentioned` holds exactly when
`mentionCount` is positive, and `mentionType` is `ABSENT` exactly when
`mentioned` is false. -/
theorem mention_invariants (text name : List Char) (cs : List (List Char)) :
    ((analyzeResponse text name cs).mentioned = true ↔
      0 < (analyzeResponse text name cs).mentionCount) ∧
    ((analyzeResponse text name cs).mentionType = MentionType.ABSENT ↔
      (analyzeResponse text name cs).mentioned = false) := by
  constructor
  · rw [analyzeResponse_mentioned, analyzeResponse_mentionCount, countOcc_pos_iff]
    simp [includesL]
  · rw [analyzeResponse_mentionType, mentionTypeOf_eq_ABSENT_iff, analyzeResponse_mentioned]

/-- Claim C10: with an empty business name every response is counted as
mentioned (the empty string is a substring of every text); on the empty
response the analyzer still reports `mentioned = true` with an empty
`mentionContext`, so "mentionContext is non-empty iff mentioned" fails
there. -/
theorem empty_name_mentioned (text : List Char) (cs : List (List Char)) :
    (analyzeResponse text [] cs).mentioned = true ∧
    ((analyzeResponse [] [] []).mentioned = true ∧
      (analyzeResponse [] [] []).mentionContext = []) := by
  refine ⟨?_, by decide, by decide⟩
  rw [analyzeResponse_mentioned]
  simp [includesL, lowerL, List.nil_infix]

end Trustable

namespace Trustable

/-- Claim C3 (amended): for the Scenario A response and business "Acme"
(absent from the text), the analyzer returns `mentioned = false`,
`mentionType = ABSENT` and a sentiment computed from the lexicon hits
alone (POSITIVE: hits "recommend", "trusted", "highly recommended", no
negative hits) — but `isRecommended = true` with strength `MODERATE`,
since the recommendation rule fires on the lexicon hit "recommend"
together with the non-NEGATIVE sentiment, regardless of mention absence. -/
theorem scenarioA_classification :
    (analyzeResponse "We love this company, highly recommended and trusted!".data
      "Acme".data []).mentioned = false ∧
    (analyzeResponse "We love this company, highly recommended and trusted!".data
      "Acme".data []).mentionType = MentionType.ABSENT ∧
    (analyzeResponse "We love this company, highly recommended and trusted!".data
      "Acme".data []).sentiment = Sentiment.POSITIVE ∧
    (analyzeResponse "We love this company, highly recommended and trusted!".data
      "Acme".data []).isRecommended = true ∧
    (analyzeResponse "We love this company, highly recommended and trusted!".data
      "Acme".data []).recommendationStrength = RecStrength.MODERATE := by
  refine ⟨by decide, by decide, ?_, ?_, by decide⟩
  · rw [analyzeResponse_sentiment,
      show positiveCountOf
        (lowerL "We love this company, highly recommended and trusted!".data) = 3 by decide,
      show negativeCountOf
        (lowerL "We love this company, highly recommended and trusted!".data) = 0 by decide,
      sentimentOf_eq]
    decide
  · rw [analyzeResponse_isRecommended,
      show positiveCountOf
        (lowerL "We love this company, highly recommended and trusted!".data) = 3 by decide,
      show negativeCountOf
        (lowerL "We love this company, highly recommended and trusted!".data) = 0 by decide,
      show recommendationCountOf
        (lowerL "We love this company, highly recommended and trusted!".data) = 1 by decide,
      sentimentOf_eq]
    decide

/-- Claim C3 counterexample: at the very input stated in the claim the analyzer returns
`isRecommended = true`, not `false`: the recommendation-lexicon hit count
is 1 ("recommend" occurs inside "recommended") and the sentiment is
POSITIVE, so the rule `count > 0 AND sentiment ≠ NEGATIVE` holds. -/
theorem scenarioA_isRecommended_true :
    (analyzeResponse "We love this company, highly recommended and trusted!".data
      "Acme".data []).isRecommended = true := by
  rw [analyzeResponse_isRecommended,
    show positiveCountOf
      (lowerL "We love this company, highly recommended and trusted!".data) = 3 by decide,
    show negativeCountOf
      (lowerL "We love this company, highly recommended and trusted!".data) = 0 by decide,
    show recommendationCountOf
      (lowerL "We love this company, highly recommended and trusted!".data) = 1 by decide,
    sentimentOf_eq]
  decide

/-- Claim C8: the confidence score is `clamp01(0.5 + 0.1*positiveCount -
0.1*hedgingHitCount)` over the distinct-hit counts; with exactly 2 distinct
hedging hits and exactly 1 positive hit, `hasHedging` holds and the score
is exactly 2/5 = 0.4. -/
theorem confidenceScore_formula (text name : List Char) (cs : List (List Char)) :
    (analyzeResponse text name cs).confidenceScore =
      clamp01 ((0.5 : ℚ) + 0.1 * (positiveCountOf (lowerL text) : ℚ) -
        0.1 * ((hedgingPhrasesOf (lowerL text)).length : ℚ)) ∧
    ((hedgingPhrasesOf (lowerL text)).length = 2 → positiveCountOf (lowerL text) = 1 →
      (analyzeResponse text name cs).hasHedging = true ∧
      (analyzeResponse text name cs).confidenceScore = 2/5) := by
  constructor
  · rw [analyzeResponse_confidenceScore]
    unfold confidenceScoreOf
    congr 1
    ring
  · intro hh hp
    constructor
    · rw [analyzeResponse_hasHedging, hh]
      decide
    · rw [analyzeResponse_confidenceScore, hh, hp]
      unfold confidenceScoreOf clamp01
      rw [show (0.5 : ℚ) + (1 : ℕ) * 0.1 - (2 : ℕ) * 0.1 = 2/5 by norm_num]
      rw [min_eq_right (by norm_num), max_eq_right (by norm_num)]

/-- Claim C8 witness: the response "This might or could be excellent" has
exactly the hedging hits "might" and "could" and the single positive hit
"excellent", and its confidence score is exactly 2/5. -/
theorem confidenceScore_formula_witness :
    (analyzeResponse "This might or could be excellent".data "Acme".data []).hasHedging = true ∧
    (analyzeResponse "This might or could be excellent".data "Acme".data []).confidenceScore = 2/5 :=
  (confidenceScore_formula "This might or could be excellent".data "Acme".data []).2
    (by decide) (by decide)

end Trustable

namespace Trustable

/-- Claim C6: the aggregator is a pure function (so equal batches give
byte-identical results) and is order-independent: permuting the batch
leaves every field of the composite score unchanged. -/
theorem calculateScores_perm (l l' : List ResponseAnalysis) (h : l.Perm l') :
    calculateScores l = calculateScores l' := by
  have hlen : l.length = l'.length := h.length_eq
  have h1 : (l.filter fun a => a.mentioned).length =
      (l'.filter fun a => a.mentioned).length := (h.filter _).length_eq
  have h2 : (l.filter fun a => a.isRecommended).length =
      (l'.filter fun a => a.isRecommended).length := (h.filter _).length_eq
  have h3 : (l.filter fun a => a.citedUrl.isSome).length =
      (l'.filter fun a => a.citedUrl.isSome).length := (h.filter _).length_eq
  have h4 : (l.filter fun a => a.hasHedging).length =
      (l'.filter fun a => a.hasHedging).length := (h.filter _).length_eq
  have h5 : (l.filter fun a => decide (a.mentionType ≠ MentionType.NEGATIVE)).length =
      (l'.filter fun a => decide (a.mentionType ≠ MentionType.NEGATIVE)).length :=
    (h.filter _).length_eq
  have h6 : (l.map fun a => a.sentimentScore).sum =
      (l'.map fun a => a.sentimentScore).sum := (h.map _).sum_eq
  have h7 : (l.map fun a => a.confidenceScore).sum =
      (l'.map fun a => a.confidenceScore).sum := (h.map _).sum_eq
  unfold calculateScores
  rw [hlen, h1, h2, h3, h4, h5, h6, h7]

/-- Claim C6 witness: swapping a concrete two-element batch leaves the
composite score unchanged. -/
theorem calculateScores_perm_witness :
    calculateScores [analyzeResponse "might be good".data "Acme".data [],
        analyzeResponse "Acme is great".data "Acme".data []] =
      calculateScores [analyzeResponse "Acme is great".data "Acme".data [],
        analyzeResponse "might be good".data "Acme".data []] :=
  calculateScores_perm _ _ (List.Perm.swap _ _ _)

/-- Claim C7: on a non-empty batch the citation score of the aggregator is
`round(100*count(citedUrl present)/n)`, its trust score is the §4.3
trust formula over the already-rounded sentiment and recommendation
sub-scores and the hedging and non-negative rates of the batch, and its
overall score is the §4.3 overall formula over the six already-rounded
sub-scores. -/
theorem calculateScores_formulas (l : List ResponseAnalysis) (h : l ≠ []) :
    (calculateScores l).ai_citation_score = specCitation l ∧
    (calculateScores l).ai_trust_score =
      specTrust (calculateScores l).sentiment_score
        (calculateScores l).ai_recommendation_score
        (hedgingRateOf l) (nonNegativeRateOf l) ∧
    (calculateScores l).overall_score =
      specOverall (calculateScores l).ai_trust_score
        (calculateScores l).ai_visibility_score
        (calculateScores l).ai_recommendation_score
        (calculateScores l).ai_citation_score
        (calculateScores l).sentiment_score
        (calculateScores l).confidence_score := by
  have hn : ¬ l.length = 0 := by simpa [List.length_eq_zero] using h
  refine ⟨?_, ?_, ?_⟩
  · simp only [calculateScores, specCitation, if_neg hn]
    congr 1
    ring
  · simp only [calculateScores, specTrust, hedgingRateOf, nonNegativeRateOf, if_neg hn]
    congr 1
    ring
  · simp only [calculateScores, specOverall, if_neg hn]
    congr 1
    ring

/-- Claim C7 witness: the formulas instantiated on a concrete singleton
batch. -/
theorem calculateScores_formulas_witness :
    (calculateScores [analyzeResponse "hello".data "Acme".data []]).ai_citation_score =
      specCitation [analyzeResponse "hello".data "Acme".data []] ∧
    (calculateScores [analyzeResponse "hello".data "Acme".data []]).ai_trust_score =
      specTrust (calculateScores [analyzeResponse "hello".data "Acme".data []]).sentiment_score
        (calculateScores [analyzeResponse "hello".data "Acme".data []]).ai_recommendation_score
        (hedgingRateOf [analyzeResponse "hello".data "Acme".data []])
        (nonNegativeRateOf [analyzeResponse "hello".data "Acme".data []]) ∧
    (calculateScores [analyzeResponse "hello".data "Acme".data []]).overall_score =
      specOverall (calculateScores [analyzeResponse "hello".data "Acme".data []]).ai_trust_score
        (calculateScores [analyzeResponse "hello".data "Acme".data []]).ai_visibility_score
        (calculateScores [analyzeResponse "hello".data "Acme".data []]).ai_recommendation_score
        (calculateScores [analyzeResponse "hello".data "Acme".data []]).ai_citation_score
        (calculateScores [analyzeResponse "hello".data "Acme".data []]).sentiment_score
        (calculateScores [analyzeResponse "hello".data "Acme".data []]).confidence_score :=
  calculateScores_formulas [analyzeResponse "hello".data "Acme".data []]
    (List.cons_ne_nil _ _)

end Trustable

namespace Trustable

theorem jround_cast_bounds {x : ℚ} (h0 : 0 ≤ x) (h100 : x ≤ 100) :
    (0 : ℚ) ≤ (jround x : ℚ) ∧ (jround x : ℚ) ≤ 100 := by
  have h := jround_bounds h0 h100
  constructor
  · exact_mod_cast h.1
  · exact_mod_cast h.2

/-- Bounds for all seven composite fields, abstracted over the five rates
and two averages that the aggregator computes from a non-empty batch, with
the exact expression shapes of `calculateScores`. -/
theorem scores_bounds_core (mrate rrate crate hrate nnrate savg cavg : ℚ)
    (hm : 0 ≤ mrate ∧ mrate ≤ 1) (hr : 0 ≤ rrate ∧ rrate ≤ 1)
    (hcr : 0 ≤ crate ∧ crate ≤ 1) (hh : 0 ≤ hrate ∧ hrate ≤ 1)
    (hnn : 0 ≤ nnrate ∧ nnrate ≤ 1)
    (hsa : -1 ≤ savg ∧ savg ≤ 1) (hca : 0 ≤ cavg ∧ cavg ≤ 1) :
    (0 ≤ jround (mrate * 100) ∧ jround (mrate * 100) ≤ 100) ∧
    (0 ≤ jround ((savg + 1) / 2 * 100) ∧ jround ((savg + 1) / 2 * 100) ≤ 100) ∧
    (0 ≤ jround (cavg * 100) ∧ jround (cavg * 100) ≤ 100) ∧
    (0 ≤ jround (rrate * 100) ∧ jround (rrate * 100) ≤ 100) ∧
    (0 ≤ jround (crate * 100) ∧ jround (crate * 100) ≤ 100) ∧
    (0 ≤ jround ((jround ((savg + 1) / 2 * 100) : ℚ) * 0.35 + (100 - hrate * 100) * 0.30 +
        (jround (rrate * 100) : ℚ) * 0.25 + nnrate * 100 * 0.10) ∧
      jround ((jround ((savg + 1) / 2 * 100) : ℚ) * 0.35 + (100 - hrate * 100) * 0.30 +
        (jround (rrate * 100) : ℚ) * 0.25 + nnrate * 100 * 0.10) ≤ 100) ∧
    (0 ≤ jround
        ((jround ((jround ((savg + 1) / 2 * 100) : ℚ) * 0.35 + (100 - hrate * 100) * 0.30 +
            (jround (rrate * 100) : ℚ) * 0.25 + nnrate * 100 * 0.10) : ℚ) * 0.25 +
          (jround (mrate * 100) : ℚ) * 0.20 + (jround (rrate * 100) : ℚ) * 0.20 +
          (jround (crate * 100) : ℚ) * 0.10 + (jround ((savg + 1) / 2 * 100) : ℚ) * 0.15 +
          (jround (cavg * 100) : ℚ) * 0.10) ∧
      jround
        ((jround ((jround ((savg + 1) / 2 * 100) : ℚ) * 0.35 + (100 - hrate * 100) * 0.30 +
            (jround (rrate * 100) : ℚ) * 0.25 + nnrate * 100 * 0.10) : ℚ) * 0.25 +
          (jround (mrate * 100) : ℚ) * 0.20 + (jround (rrate * 100) : ℚ) * 0.20 +
          (jround (crate * 100) : ℚ) * 0.10 + (jround ((savg + 1) / 2 * 100) : ℚ) * 0.15 +
          (jround (cavg * 100) : ℚ) * 0.10) ≤ 100) := by
  obtain ⟨hm0, hm1⟩ := hm
  obtain ⟨hr0, hr1⟩ := hr
  obtain ⟨hcr0, hcr1⟩ := hcr
  obtain ⟨hh0, hh1⟩ := hh
  obtain ⟨hnn0, hnn1⟩ := hnn
  obtain ⟨hsa0, hsa1⟩ := hsa
  obtain ⟨hca0, hca1⟩ := hca
  have hvis := jround_cast_bounds (x := mrate * 100) (by linarith) (by linarith)
  have hsent := jround_cast_bounds (x := (savg + 1) / 2 * 100) (by linarith) (by linarith)
  have hconf := jround_cast_bounds (x := cavg * 100) (by linarith) (by linarith)
  have hrec := jround_cast_bounds (x := rrate * 100) (by linarith) (by linarith)
  have hcit := jround_cast_bounds (x := crate * 100) (by linarith) (by linarith)
  have htrust := jround_cast_bounds
    (x := (jround ((savg + 1) / 2 * 100) : ℚ) * 0.35 + (100 - hrate * 100) * 0.30 +
      (jround (rrate * 100) : ℚ) * 0.25 + nnrate * 100 * 0.10)
    (by linarith [hsent.1, hsent.2, hrec.1, hrec.2])
    (by linarith [hsent.1, hsent.2, hrec.1, hrec.2])
  have hoverall := jround_bounds
    (x := (jround ((jround ((savg + 1) / 2 * 100) : ℚ) * 0.35 + (100 - hrate * 100) * 0.30 +
        (jround (rrate * 100) : ℚ) * 0.25 + nnrate * 100 * 0.10) : ℚ) * 0.25 +
      (jround (mrate * 100) : ℚ) * 0.20 + (jround (rrate * 100) : ℚ) * 0.20 +
      (jround (crate * 100) : ℚ) * 0.10 + (jround ((savg + 1) / 2 * 100) : ℚ) * 0.15 +
      (jround (cavg * 100) : ℚ) * 0.10)
    (by linarith [htrust.1, htrust.2, hvis.1, hvis.2, hrec.1, hrec.2, hcit.1, hcit.2,
      hsent.1, hsent.2, hconf.1, hconf.2])
    (by linarith [htrust.1, htrust.2, hvis.1, hvis.2, hrec.1, hrec.2, hcit.1, hcit.2,
      hsent.1, hsent.2, hconf.1, hconf.2])
  refine ⟨⟨?_, ?_⟩, ⟨?_, ?_⟩, ⟨?_, ?_⟩, ⟨?_, ?_⟩, ⟨?_, ?_⟩, ⟨?_, ?_⟩, hoverall⟩
  · exact_mod_cast hvis.1
  · exact_mod_cast hvis.2
  · exact_mod_cast hsent.1
  · exact_mod_cast hsent.2
  · exact_mod_cast hconf.1
  · exact_mod_cast hconf.2
  · exact_mod_cast hrec.1
  · exact_mod_cast hrec.2
  · exact_mod_cast hcit.1
  · exact_mod_cast hcit.2
  · exact_mod_cast htrust.1
  · exact_mod_cast htrust.2

end Trustable

namespace Trustable

theorem list_avg_bounds {l : List ℚ} {lo hi : ℚ} (hne : l ≠ [])
    (h : ∀ x ∈ l, lo ≤ x ∧ x ≤ hi) :
    lo ≤ l.sum / (l.length : ℚ) ∧ l.sum / (l.length : ℚ) ≤ hi := by
  have hpos : (0 : ℚ) < (l.length : ℚ) := by
    have : 0 < l.length := List.length_pos.mpr hne
    exact_mod_cast this
  have hlb : (l.length : ℚ) * lo ≤ l.sum := by
    have := List.card_nsmul_le_sum l lo fun x hx => (h x hx).1
    simpa [nsmul_eq_mul] using this
  have hub : l.sum ≤ (l.length : ℚ) * hi := by
    have := List.sum_le_card_nsmul l hi fun x hx => (h x hx).2
    simpa [nsmul_eq_mul] using this
  constructor
  · rw [le_div_iff₀ hpos]
    linarith
  · rw [div_le_iff₀ hpos]
    linarith

/-- All seven composite fields of `calculateScores` are in `[0, 100]`,
whenever the per-response scores of every batch element are in range. -/
theorem calculateScores_bounds (l : List ResponseAnalysis)
    (hs : ∀ a ∈ l, -1 ≤ a.sentimentScore ∧ a.sentimentScore ≤ 1)
    (hc : ∀ a ∈ l, 0 ≤ a.confidenceScore ∧ a.confidenceScore ≤ 1) :
    (0 ≤ (calculateScores l).ai_visibility_score ∧
      (calculateScores l).ai_visibility_score ≤ 100) ∧
    (0 ≤ (calculateScores l).sentiment_score ∧
      (calculateScores l).sentiment_score ≤ 100) ∧
    (0 ≤ (calculateScores l).confidence_score ∧
      (calculateScores l).confidence_score ≤ 100) ∧
    (0 ≤ (calculateScores l).ai_recommendation_score ∧
      (calculateScores l).ai_recommendation_score ≤ 100) ∧
    (0 ≤ (calculateScores l).ai_citation_score ∧
      (calculateScores l).ai_citation_score ≤ 100) ∧
    (0 ≤ (calculateScores l).ai_trust_score ∧
      (calculateScores l).ai_trust_score ≤ 100) ∧
    (0 ≤ (calculateScores l).overall_score ∧
      (calculateScores l).overall_score ≤ 100) := by
  rcases eq_or_ne l [] with rfl | hne
  · exact ⟨by decide, by decide, by decide, by decide, by decide, by decide, by decide⟩
  · have hn : ¬ l.length = 0 := by simpa [List.length_eq_zero] using hne
    have hpos : (0 : ℚ) < (l.length : ℚ) := by
      have : 0 < l.length := List.length_pos.mpr hne
      exact_mod_cast this
    have hrate : ∀ f : ResponseAnalysis → Bool,
        0 ≤ ((l.filter f).length : ℚ) / (l.length : ℚ) ∧
        ((l.filter f).length : ℚ) / (l.length : ℚ) ≤ 1 := fun f =>
      ⟨div_nonneg (Nat.cast_nonneg _) (le_of_lt hpos),
       (div_le_one hpos).mpr (by exact_mod_cast List.length_filter_le f l)⟩
    have hsavg : -1 ≤ (l.map fun a => a.sentimentScore).sum / (l.length : ℚ) ∧
        (l.map fun a => a.sentimentScore).sum / (l.length : ℚ) ≤ 1 := by
      have := list_avg_bounds (l := l.map fun a => a.sentimentScore)
        (by simpa using hne)
        (by
          intro x hx
          rcases List.mem_map.mp hx with ⟨a, ha, rfl⟩
          exact hs a ha)
      simpa [List.length_map] using this
    have hcavg : 0 ≤ (l.map fun a => a.confidenceScore).sum / (l.length : ℚ) ∧
        (l.map fun a => a.confidenceScore).sum / (l.length : ℚ) ≤ 1 := by
      have := list_avg_bounds (l := l.map fun a => a.confidenceScore)
        (by simpa using hne)
        (by
          intro x hx
          rcases List.mem_map.mp hx with ⟨a, ha, rfl⟩
          exact hc a ha)
      simpa [List.length_map] using this
    simp only [calculateScores, if_neg hn]
    exact scores_bounds_core _ _ _ _ _ _ _ (hrate _) (hrate _) (hrate _) (hrate _) (hrate _)
      hsavg hcavg

end Trustable

namespace Trustable

/-- Claim C9: for every batch of analyses produced by the analyzer from
any inputs (the empty batch included), all seven composite fields lie in
`[0, 100]`, every per-response sentiment score lies in `[-1, 1]`, and
every per-response confidence score lies in `[0, 1]`. -/
theorem score_bounds (inputs : List (List Char × List Char × List (List Char))) :
    ((0 ≤ (calculateScores (analyzeBatch inputs)).ai_visibility_score ∧
      (calculateScores (analyzeBatch inputs)).ai_visibility_score ≤ 100) ∧
    (0 ≤ (calculateScores (analyzeBatch inputs)).sentiment_score ∧
      (calculateScores (analyzeBatch inputs)).sentiment_score ≤ 100) ∧
    (0 ≤ (calculateScores (analyzeBatch inputs)).confidence_score ∧
      (calculateScores (analyzeBatch inputs)).confidence_score ≤ 100) ∧
    (0 ≤ (calculateScores (analyzeBatch inputs)).ai_recommendation_score ∧
      (calculateScores (analyzeBatch inputs)).ai_recommendation_score ≤ 100) ∧
    (0 ≤ (calculateScores (analyzeBatch inputs)).ai_citation_score ∧
      (calculateScores (analyzeBatch inputs)).ai_citation_score ≤ 100) ∧
    (0 ≤ (calculateScores (analyzeBatch inputs)).ai_trust_score ∧
      (calculateScores (analyzeBatch inputs)).ai_trust_score ≤ 100) ∧
    (0 ≤ (calculateScores (analyzeBatch inputs)).overall_score ∧
      (calculateScores (analyzeBatch inputs)).overall_score ≤ 100)) ∧
    (∀ a ∈ analyzeBatch inputs,
      (-1 ≤ a.sentimentScore ∧ a.sentimentScore ≤ 1) ∧
      (0 ≤ a.confidenceScore ∧ a.confidenceScore ≤ 1)) := by
  have hper : ∀ a ∈ analyzeBatch inputs,
      (-1 ≤ a.sentimentScore ∧ a.sentimentScore ≤ 1) ∧
      (0 ≤ a.confidenceScore ∧ a.confidenceScore ≤ 1) := by
    intro a ha
    rcases List.mem_map.mp ha with ⟨i, _, rfl⟩
    rw [analyzeResponse_sentimentScore, analyzeResponse_confidenceScore]
    exact ⟨sentimentScoreOf_bounds _ _, clamp01_bounds _⟩
  exact ⟨calculateScores_bounds _ (fun a ha => (hper a ha).1) (fun a ha => (hper a ha).2), hper⟩

end Trustable
